import Mathlib

/-!
Verification of the gym-store catalog backend (`src/main.py`).

The backend is a small HTTP service over a document store.  We embed the
request handlers and the document-serialization rule of `main.py` shallowly:

* a stored record (a Python `dict`) is an ordered association list of
  string keys to `Value`s, with the Python `dict` operations (lookup,
  membership, `pop`, item assignment) modelled over it;
* the external collaborators that are not part of `src/` — the
  `database` module (`create_document`, `get_documents`, `db`) and the
  pydantic `Product` schema — are modelled from the spec as an abstract
  stateful gateway interface and a plain record type;
* Python exceptions become `Except`: a handler that catches storage
  failures and re-raises `HTTPException(500, str(e))` becomes a total
  function into `Except HTTPException _`.
-/

/-- A Python value as it occurs in a stored document.  `vobjid` is a BSON
`ObjectId` carrying the hex string that `str` returns for it; `vdatetime`
is a datetime-like value (the only kind with an `isoformat` attribute),
carrying both its `str` form and its `isoformat` form. -/
inductive Value where
  | vnone
  | vbool (b : Bool)
  | vint (n : Int)
  | vfloat (q : Rat)
  | vstr (s : String)
  | vobjid (hex : String)
  | vdatetime (txt : String) (iso : String)
deriving DecidableEq

/-- Python `str(v)` for each modelled value. -/
def pyStr : Value → String
  | .vnone => "None"
  | .vbool b => if b then "True" else "False"
  | .vint n => toString n
  | .vfloat q => toString q
  | .vstr s => s
  | .vobjid h => h
  | .vdatetime t _ => t

/-- `hasattr(v, "isoformat")`: true exactly for datetime-like values. -/
def hasIso : Value → Bool
  | .vdatetime _ _ => true
  | _ => false

/-- `v.isoformat()` (meaningful only when `hasIso v`). -/
def isoStr : Value → String
  | .vdatetime _ iso => iso
  | _ => ""

/-- A Python `dict` keeps insertion order: we model documents as ordered
association lists with string keys. -/
abbrev Doc := List (String × Value)

/-- `d[k]` / `d.get(k)`: the value stored at key `k`, if any. -/
def lookup (d : Doc) (k : String) : Option Value :=
  (d.find? (fun kv => kv.1 == k)).map (fun kv => kv.2)

/-- `k in d`. -/
def hasKey (d : Doc) (k : String) : Bool :=
  d.any (fun kv => kv.1 == k)

/-- The removal effect of `d.pop(k)`: drop the entry with key `k`. -/
def eraseKey (d : Doc) (k : String) : Doc :=
  d.filter (fun kv => !(kv.1 == k))

/-- `d[k] = v`: replace the value in place if the key is present (keeping
its position, as a Python dict does), otherwise append the new entry. -/
def setKey (d : Doc) (k : String) (v : Value) : Doc :=
  if hasKey d k then d.map (fun kv => if kv.1 == k then (k, v) else kv)
  else d ++ [(k, v)]

/-- The value returned by `d.pop(k)` (callers guard on `hasKey`). -/
def getVal (d : Doc) (k : String) : Value :=
  (lookup d k).getD .vnone

/-- Lines 26-27 of `main.py`: `if "_id" in d: d["id"] = str(d.pop("_id"))`.
Python evaluates the right-hand side first, so the `pop` removes `_id`
before `id` is assigned on the reduced dict. -/
def renameId (d : Doc) : Doc :=
  if hasKey d "_id" then setKey (eraseKey d "_id") "id" (.vstr (pyStr (getVal d "_id")))
  else d

/-- Lines 29-31 of `main.py`: `for k, v in list(d.items()): if hasattr(v,
"isoformat"): d[k] = v.isoformat()`.  Dict keys are unique and in-place
assignment keeps each key at its position, so the loop is the pointwise
map over the entries. -/
def convertDatetimes (d : Doc) : Doc :=
  d.map (fun kv => if hasIso kv.2 then (kv.1, Value.vstr (isoStr kv.2)) else kv)

/-- Lines 22-32 of `main.py` applied to an actual dict (the declared
parameter type): guard on the empty dict, copy, rename the identifier,
stringify datetime fields.  (`d = doc.copy()` makes the local `d` a fresh
object; our values are immutable, so the copy is the value itself.) -/
def serialize_doc (doc : Doc) : Doc :=
  if doc.isEmpty then doc
  else convertDatetimes (renameId doc)

/-- Python truthiness of the argument at line 23 (`if not doc`): `None`
and the empty dict are falsy. -/
def docTruthy : Option Doc → Bool
  | Option.none => false
  | some d => !d.isEmpty

/-- `serialize_doc` as called with a possibly-`None` argument: `if not
doc: return doc` returns `None` and the empty dict unchanged. -/
def serialize_doc_py (doc : Option Doc) : Option Doc :=
  if docTruthy doc then doc.map serialize_doc else doc

/-! ### Dictionary lemmas -/

theorem find?_eq_none_of_not_hasKey (d : Doc) (k : String) (h : hasKey d k = false) :
    d.find? (fun kv => kv.1 == k) = Option.none := by
  rw [List.find?_eq_none]
  intro kv hmem hp
  have : hasKey d k = true := by
    unfold hasKey
    exact List.any_eq_true.mpr ⟨kv, hmem, hp⟩
  simp [this] at h

theorem lookup_map_replace (d : Doc) (k : String) (v : Value) (h : hasKey d k = true) :
    lookup (d.map (fun kv => if kv.1 == k then (k, v) else kv)) k = some v := by
  induction d with
  | nil => simp [hasKey] at h
  | cons kv t ih =>
    obtain ⟨k₀, v₀⟩ := kv
    by_cases hk : k₀ = k
    · subst hk
      simp [lookup]
    · have hb : (k₀ == k) = false := by simpa using hk
      have ht : hasKey t k = true := by
        simpa [hasKey, hb] using h
      simp only [List.map_cons, hb, Bool.false_eq_true, if_false]
      unfold lookup
      rw [List.find?_cons_of_neg _ (by simp [hb])]
      exact ih ht

theorem lookup_setKey_self (d : Doc) (k : String) (v : Value) :
    lookup (setKey d k v) k = some v := by
  unfold setKey
  by_cases h : hasKey d k = true
  · rw [if_pos h]
    exact lookup_map_replace d k v h
  · rw [if_neg h, lookup, List.find?_append,
      find?_eq_none_of_not_hasKey d k (by simpa using h)]
    simp

theorem hasKey_map_replace (d : Doc) (k k' : String) (v : Value) :
    hasKey (d.map (fun kv => if kv.1 == k then (k, v) else kv)) k' = hasKey d k' := by
  induction d with
  | nil => rfl
  | cons kv t ih =>
    obtain ⟨k₀, v₀⟩ := kv
    by_cases hk : k₀ = k
    · subst hk
      rw [List.map_cons, if_pos (show (k₀ == k₀) = true by simp)]
      simp only [hasKey, List.any_cons] at ih ⊢
      rw [ih]
    · have hb : (k₀ == k) = false := by simpa using hk
      simp only [List.map_cons, hb, Bool.false_eq_true, if_false, hasKey,
        List.any_cons] at ih ⊢
      rw [ih]

theorem hasKey_setKey_ne (d : Doc) (k k' : String) (v : Value) (hne : k' ≠ k) :
    hasKey (setKey d k v) k' = hasKey d k' := by
  unfold setKey
  by_cases h : hasKey d k = true
  · rw [if_pos h]
    exact hasKey_map_replace d k k' v
  · rw [if_neg h]
    have hb : (k == k') = false := by simpa using (Ne.symm hne)
    simp [hasKey, List.any_append, hb]

theorem hasKey_eraseKey_self (d : Doc) (k : String) :
    hasKey (eraseKey d k) k = false := by
  unfold eraseKey hasKey
  rw [List.any_eq_false]
  intro kv hmem
  have hp := List.of_mem_filter hmem
  simp only [Bool.not_eq_eq_eq_not, Bool.not_true] at hp
  simp [hp]

theorem setKey_ne_nil (d : Doc) (k : String) (v : Value) :
    setKey d k v ≠ [] := by
  unfold setKey
  by_cases h : hasKey d k = true
  · rw [if_pos h]
    intro hcon
    rw [List.map_eq_nil_iff] at hcon
    simp [hcon, hasKey] at h
  · simp [h]

theorem lookup_convertDatetimes (d : Doc) (k : String) :
    lookup (convertDatetimes d) k =
      (lookup d k).map (fun v => if hasIso v then Value.vstr (isoStr v) else v) := by
  induction d with
  | nil => rfl
  | cons kv t ih =>
    obtain ⟨k₀, v₀⟩ := kv
    by_cases hk : k₀ = k
    · subst hk
      by_cases hi : hasIso v₀ = true
      · simp [convertDatetimes, lookup, hi]
      · simp [convertDatetimes, lookup, hi]
    · have hb : (k₀ == k) = false := by simpa using hk
      by_cases hi : hasIso v₀ = true
      · simpa [convertDatetimes, lookup, hi, hb] using ih
      · simpa [convertDatetimes, lookup, hi, hb] using ih

theorem hasKey_convertDatetimes (d : Doc) (k : String) :
    hasKey (convertDatetimes d) k = hasKey d k := by
  induction d with
  | nil => rfl
  | cons kv t ih =>
    obtain ⟨k₀, v₀⟩ := kv
    by_cases hi : hasIso v₀ = true
    · simp only [convertDatetimes, List.map_cons] at ih ⊢
      simp only [hi, if_true, hasKey, List.any_cons] at ih ⊢
      rw [ih]
    · simp only [convertDatetimes, List.map_cons] at ih ⊢
      simp only [hi, Bool.false_eq_true, if_false, hasKey, List.any_cons] at ih ⊢
      rw [ih]

theorem convertDatetimes_convertDatetimes (d : Doc) :
    convertDatetimes (convertDatetimes d) = convertDatetimes d := by
  unfold convertDatetimes
  rw [List.map_map]
  apply List.map_congr_left
  intro kv _
  obtain ⟨k₀, v₀⟩ := kv
  cases v₀ <;> simp [Function.comp, hasIso, isoStr]

theorem convertDatetimes_eq_nil_iff (d : Doc) :
    convertDatetimes d = [] ↔ d = [] := by
  unfold convertDatetimes
  exact List.map_eq_nil_iff

theorem ne_nil_of_hasKey (d : Doc) (k : String) (h : hasKey d k = true) :
    d ≠ [] := by
  intro hcon
  simp [hcon, hasKey] at h

/-! ### The catalog service (`src/main.py` handlers)

The `database` module and the pydantic `Product` schema are imported by
`main.py` but are not part of `src/`; they are modelled from the spec. -/

/-- Modelled from the spec (§3): the pydantic `Product` schema of the
missing `schemas` module — title, description, price, category, in_stock. -/
structure Product where
  title : String
  description : String
  price : Rat
  category : String
  in_stock : Bool
deriving DecidableEq

/-- `fastapi.HTTPException(status_code, detail)` as raised by the handlers. -/
structure HTTPError where
  status_code : Nat
  detail : String
deriving DecidableEq

/-- Modelled from the spec (§4.1): the Document Gateway of the missing
`database` module.  Its two operations act on an abstract store state `σ`
(the underlying document store); a raised `StorageError` is an `Except`
error carrying the exception text `str(e)`.  `get_documents` takes the
collection name, an equality filter and an optional limit; on success it
returns the matching records and the (possibly unchanged) store state.
`create_document` persists one record and returns the new identifier. -/
structure Gateway (σ : Type) where
  get_documents : String → Doc → Option Int → σ → Except String (List Doc × σ)
  create_document : String → Product → σ → Except String (String × σ)

/-- Python truthiness of an `Optional[str]`: `None` and `""` are falsy. -/
def strOptTruthy : Option String → Bool
  | Option.none => false
  | some s => !s.isEmpty

/-- Line 49 of `main.py`:
`filter_dict = {"category": category} if category else {}`. -/
def filter_dict (category : Option String) : Doc :=
  if strOptTruthy category then [("category", Value.vstr (category.getD ""))] else []

/-- Lines 45-53 of `main.py`, `GET /api/products`: build the category
filter, list the "product" collection, serialize each record; any storage
exception is caught and re-raised as `HTTPException(500, str(e))`. -/
def list_products {σ : Type} (gw : Gateway σ) (category : Option String)
    (limit : Option Int) (s : σ) : Except HTTPError (List Doc × σ) :=
  match gw.get_documents "product" (filter_dict category) limit s with
  | .ok (items, s₁) => .ok (items.map serialize_doc, s₁)
  | .error e => .error ⟨500, e⟩

/-- Lines 56-63 of `main.py`, `POST /api/products`: create the document
and return the response body `\x7b"id": new_id\x7d`; storage exceptions become
`HTTPException(500, str(e))`. -/
def create_product {σ : Type} (gw : Gateway σ) (product : Product) (s : σ) :
    Except HTTPError (String × σ) :=
  match gw.create_document "product" product s with
  | .ok (new_id, s₁) => .ok (new_id, s₁)
  | .error e => .error ⟨500, e⟩

/-- Lines 73-109 of `main.py`: the five fixed sample products, in source
order. -/
def sample_products : List Product :=
  [ { title := "Adjustable Dumbbell (Pair)"
    , description := "Space-saving adjustable dumbbells with quick-select weight system."
    , price := 249.99
    , category := "Strength"
    , in_stock := true }
  , { title := "Kettlebell 16kg"
    , description := "Cast iron kettlebell with flat base and comfortable handle."
    , price := 59.99
    , category := "Strength"
    , in_stock := true }
  , { title := "Yoga Mat Pro"
    , description := "Non-slip, 6mm cushioning yoga mat for comfort and stability."
    , price := 39.99
    , category := "Mobility"
    , in_stock := true }
  , { title := "Resistance Bands Set"
    , description := "Set of 5 bands with varying resistance levels and door anchor."
    , price := 24.99
    , category := "Accessories"
    , in_stock := true }
  , { title := "Foldable Treadmill"
    , description := "Compact treadmill with incline and app connectivity."
    , price := 699.0
    , category := "Cardio"
    , in_stock := true } ]

/-- The response body of `POST /api/seed`: either
`\x7b"status": ..., "message": ...\x7d` or `\x7b"status": ..., "count": ...\x7d`. -/
inductive SeedResponse where
  | noop (status message : String)
  | seeded (status : String) (count : Nat)
deriving DecidableEq

/-- Lines 110-111 of `main.py`: `for p in sample_products:
create_document("product", p)` — sequential creates, aborted by the first
storage exception. -/
def createAll {σ : Type} (gw : Gateway σ) : List Product → σ → Except String σ
  | [], s => .ok s
  | p :: rest, s =>
    match gw.create_document "product" p s with
    | .ok (_, s₁) => createAll gw rest s₁
    | .error e => .error e

/-- Lines 66-114 of `main.py`, `POST /api/seed`: list with the empty
filter and limit 1; if anything exists return the no-op response,
otherwise create the five sample products in order and return the count;
storage exceptions become `HTTPException(500, str(e))`. -/
def seed_products {σ : Type} (gw : Gateway σ) (s : σ) :
    Except HTTPError (SeedResponse × σ) :=
  match gw.get_documents "product" [] (some 1) s with
  | .error e => .error ⟨500, e⟩
  | .ok (existing, s₁) =>
    if !existing.isEmpty then .ok (.noop "ok" "Products already exist", s₁)
    else
      match createAll gw sample_products s₁ with
      | .error e => .error ⟨500, e⟩
      | .ok s₂ => .ok (.seeded "ok" sample_products.length, s₂)

/-- Modelled from the spec (§4.2, §6): the global `db` handle of the
missing `database` module as seen by `/test` — either `None`, or an
available database with an optional `name` attribute whose
`list_collection_names()` either returns the collection names or raises
(carrying the exception text `str(e)`). -/
inductive DbHandle where
  | noDb
  | available (name : Option String) (collectionNames : Except String (List String))

/-- The `/test` response body.  `database_url` and `database_name` start
as `None` and are overwritten with strings before the handler returns. -/
structure TestResponse where
  backend : String
  database : String
  database_url : Option String
  database_name : Option String
  connection_status : String
  collections : List String
deriving DecidableEq

/-- Lines 117-151 of `main.py`, `GET /test`: builds the diagnostic
response.  Every store failure is caught: a `list_collection_names`
exception becomes a status string embedding `str(e)[:50]`; the final two
assignments overwrite `database_url` / `database_name` from the presence
of the environment variables.  The handler is total — no error escapes. -/
def test_database (db : DbHandle) (databaseUrlSet databaseNameSet : Bool) :
    TestResponse :=
  let response : TestResponse :=
    { backend := "✅ Running"
    , database := "❌ Not Available"
    , database_url := Option.none
    , database_name := Option.none
    , connection_status := "Not Connected"
    , collections := [] }
  let response :=
    match db with
    | .noDb => { response with database := "⚠️  Available but not initialized" }
    | .available name collectionNames =>
      let response :=
        { response with
          database := "✅ Available"
          database_url := some "✅ Configured"
          database_name := some (name.getD "✅ Connected")
          connection_status := "Connected" }
      match collectionNames with
      | .ok collections =>
        { response with
          collections := collections.take 10
          database := "✅ Connected & Working" }
      | .error e =>
        { response with database := "⚠️  Connected but Error: " ++ e.take 50 }
  { response with
    database_url := some (if databaseUrlSet then "✅ Set" else "❌ Not Set")
    database_name := some (if databaseNameSet then "✅ Set" else "❌ Not Set") }

/-- Lines 25-31 of `main.py` as statements over the local environment: the
caller's dict `doc` and the local name `d`.  Each statement of the body
writes only through `d`; `doc` is never assigned or mutated. -/
structure SerState where
  doc : Doc
  d : Doc

/-- Line 25: `d = doc.copy()` — `d` becomes a fresh object with `doc`'s
entries. -/
def stCopy (s : SerState) : SerState := { s with d := s.doc }

/-- Lines 26-27: the identifier rename, mutating only `d`. -/
def stRenameId (s : SerState) : SerState := { s with d := renameId s.d }

/-- Lines 29-31: the datetime loop, mutating only `d`. -/
def stConvert (s : SerState) : SerState := { s with d := convertDatetimes s.d }

/-- The body of `serialize_doc` (after the emptiness guard) run as the
sequence of its three statements, starting from the caller's dict. -/
def runSerializeBody (doc : Doc) : SerState :=
  stConvert (stRenameId (stCopy { doc := doc, d := [] }))

/-! ### Claims about the serialization rule -/

/-- C1: for every record read from storage that contains the
store-managed identifier field `"_id"`, `serialize_doc` removes that
field and re-inserts it under the key `"id"` with its value converted to
its string representation. -/
theorem serialize_doc_renames_id (d : Doc) (h : hasKey d "_id" = true) :
    hasKey (serialize_doc d) "_id" = false ∧
    lookup (serialize_doc d) "id" = some (.vstr (pyStr (getVal d "_id"))) := by
  have hempty : d.isEmpty = false := by
    cases d with
    | nil => simp [hasKey] at h
    | cons kv t => rfl
  unfold serialize_doc
  rw [if_neg (by simp [hempty])]
  unfold renameId
  rw [if_pos h]
  constructor
  · rw [hasKey_convertDatetimes, hasKey_setKey_ne _ _ _ _ (by decide),
      hasKey_eraseKey_self]
  · rw [lookup_convertDatetimes, lookup_setKey_self]
    simp [hasIso]

def docWithId : Doc :=
  [("_id", Value.vobjid "64ab12"), ("title", Value.vstr "Kettlebell 16kg")]

theorem serialize_doc_renames_id_witness :
    hasKey (serialize_doc docWithId) "_id" = false ∧
    lookup (serialize_doc docWithId) "id" = some (Value.vstr "64ab12") :=
  serialize_doc_renames_id docWithId rfl

/-- C2: for every non-empty record, after the identifier renaming, every
field whose value is timestamp/date-like (has `isoformat`) is replaced by
its ISO-8601 textual representation, and every other field passes through
with its value unchanged. -/
theorem serialize_doc_converts_datetimes (d : Doc) (k : String) (v : Value)
    (hne : d.isEmpty = false) (hv : lookup (renameId d) k = some v) :
    (hasIso v = true → lookup (serialize_doc d) k = some (.vstr (isoStr v))) ∧
    (hasIso v = false → lookup (serialize_doc d) k = some v) := by
  unfold serialize_doc
  rw [if_neg (by simp [hne]), lookup_convertDatetimes, hv]
  constructor
  · intro hi
    simp [hi]
  · intro hi
    simp [hi]

def docWithDatetime : Doc :=
  [("_id", Value.vobjid "a0"),
   ("created_at", Value.vdatetime "2024-01-02 03:04:05" "2024-01-02T03:04:05"),
   ("title", Value.vstr "Yoga Mat Pro")]

theorem serialize_doc_converts_datetimes_witness :
    lookup (serialize_doc docWithDatetime) "created_at" =
      some (Value.vstr "2024-01-02T03:04:05") ∧
    lookup (serialize_doc docWithDatetime) "title" =
      some (Value.vstr "Yoga Mat Pro") :=
  ⟨(serialize_doc_converts_datetimes docWithDatetime "created_at"
      (Value.vdatetime "2024-01-02 03:04:05" "2024-01-02T03:04:05") rfl rfl).1 rfl,
   (serialize_doc_converts_datetimes docWithDatetime "title"
      (Value.vstr "Yoga Mat Pro") rfl rfl).2 rfl⟩

/-- C3: the serialization rule is idempotent — applying `serialize_doc`
twice yields the same record as applying it once — and the output never
carries a second identifier field `"_id"`. -/
theorem serialize_doc_idempotent (d : Doc) :
    serialize_doc (serialize_doc d) = serialize_doc d ∧
    hasKey (serialize_doc d) "_id" = false := by
  by_cases hd : d.isEmpty = true
  · have hnil : d = [] := List.isEmpty_iff.mp hd
    subst hnil
    exact ⟨rfl, rfl⟩
  · have hser : serialize_doc d = convertDatetimes (renameId d) := by
      unfold serialize_doc
      rw [if_neg hd]
    have hnoid : hasKey (convertDatetimes (renameId d)) "_id" = false := by
      rw [hasKey_convertDatetimes]
      unfold renameId
      by_cases h : hasKey d "_id" = true
      · rw [if_pos h, hasKey_setKey_ne _ _ _ _ (by decide), hasKey_eraseKey_self]
      · rw [if_neg h]
        simpa using h
    have hrne : renameId d ≠ [] := by
      unfold renameId
      by_cases h : hasKey d "_id" = true
      · rw [if_pos h]
        exact setKey_ne_nil _ _ _
      · rw [if_neg h]
        intro hc
        exact hd (by simp [hc])
    have hcne : convertDatetimes (renameId d) ≠ [] := by
      intro hc
      exact hrne ((convertDatetimes_eq_nil_iff _).mp hc)
    have hcempty : ¬((convertDatetimes (renameId d)).isEmpty = true) := by
      intro hval
      exact hcne (List.isEmpty_iff.mp hval)
    have hfix : ∀ X : Doc, hasKey X "_id" = false → ¬(X.isEmpty = true) →
        convertDatetimes X = X → serialize_doc X = X := by
      intro X hnid hne hconv
      unfold serialize_doc
      rw [if_neg hne]
      unfold renameId
      rw [if_neg (by simp [hnid])]
      exact hconv
    refine ⟨?_, hser ▸ hnoid⟩
    refine hfix (serialize_doc d) (hser ▸ hnoid) (by rw [hser]; exact hcempty) ?_
    rw [hser]
    exact convertDatetimes_convertDatetimes _

/-- C4: the serialization rule is the identity on an empty or absent
record: both `None` and the empty dict come back unchanged. -/
theorem serialize_doc_empty_noop :
    serialize_doc_py Option.none = Option.none ∧
    serialize_doc_py (some ([] : Doc)) = some ([] : Doc) ∧
    serialize_doc ([] : Doc) = ([] : Doc) :=
  ⟨rfl, rfl, rfl⟩

/-- C9: `serialize_doc` never mutates its argument: running the body as
its sequence of statements, every write goes through the local copy `d`,
so the caller's dict is unchanged while the returned value is the
serialized record. -/
theorem serialize_doc_no_mutation (doc : Doc) (h : doc.isEmpty = false) :
    (runSerializeBody doc).doc = doc ∧
    (runSerializeBody doc).d = serialize_doc doc := by
  refine ⟨rfl, ?_⟩
  unfold runSerializeBody stConvert stRenameId stCopy serialize_doc
  rw [if_neg (by simp [h])]

def docForFrame : Doc :=
  [("_id", Value.vobjid "b1"), ("title", Value.vstr "Foldable Treadmill")]

theorem serialize_doc_no_mutation_witness :
    (runSerializeBody docForFrame).doc = docForFrame ∧
    (runSerializeBody docForFrame).d = serialize_doc docForFrame :=
  serialize_doc_no_mutation docForFrame rfl

/-- C10: for every record containing `"_id"`, the output has no `"_id"`
key and its `"id"` key equals the string form of the input's `"_id"`
value — even when the input already carried a distinct `"id"` field,
whose value is overwritten. -/
theorem serialize_doc_id_overwrite (d : Doc) (w : Value)
    (hid : hasKey d "_id" = true) (hw : lookup d "id" = some w) :
    hasKey (serialize_doc d) "_id" = false ∧
    lookup (serialize_doc d) "id" = some (.vstr (pyStr (getVal d "_id"))) := by
  have hempty : d.isEmpty = false := by
    cases d with
    | nil => simp [hasKey] at hid
    | cons kv t => rfl
  unfold serialize_doc
  rw [if_neg (by simp [hempty])]
  unfold renameId
  rw [if_pos hid]
  constructor
  · rw [hasKey_convertDatetimes, hasKey_setKey_ne _ _ _ _ (by decide),
      hasKey_eraseKey_self]
  · rw [lookup_convertDatetimes, lookup_setKey_self]
    simp [hasIso]

def docWithBothIds : Doc :=
  [("id", Value.vstr "stale"), ("_id", Value.vobjid "f00d")]

theorem serialize_doc_id_overwrite_witness :
    hasKey (serialize_doc docWithBothIds) "_id" = false ∧
    lookup (serialize_doc docWithBothIds) "id" = some (Value.vstr "f00d") :=
  serialize_doc_id_overwrite docWithBothIds (Value.vstr "stale") rfl rfl

/-! ### Claims about the handlers -/

/-- C6: `list_products` builds an equality filter from `category` when it
is provided and non-empty (empty/absent means the empty filter), calls
the gateway on the "product" collection with that filter and the optional
limit, serializes each returned record, and returns the list in order. -/
theorem list_products_spec {σ : Type} (gw : Gateway σ) (s : σ)
    (category : Option String) (limit : Option Int) :
    (strOptTruthy category = false → filter_dict category = []) ∧
    (∀ c, category = some c → c ≠ "" →
      filter_dict category = [("category", Value.vstr c)]) ∧
    (∀ items s₁,
      gw.get_documents "product" (filter_dict category) limit s = .ok (items, s₁) →
      list_products gw category limit s = .ok (items.map serialize_doc, s₁)) := by
  refine ⟨?_, ?_, ?_⟩
  · intro h
    unfold filter_dict
    rw [if_neg (by simp [h])]
  · intro c hc hne
    subst hc
    have ht : strOptTruthy (some c) = true := by
      unfold strOptTruthy
      simp [(String.isEmpty_iff c).not.mpr hne]
    unfold filter_dict
    rw [if_pos ht]
    rfl
  · intro items s₁ h
    unfold list_products
    rw [h]

/-- A gateway whose store holds exactly one fixed record. -/
def oneDocGateway : Gateway Unit where
  get_documents := fun _ _ _ s =>
    .ok ([[("_id", Value.vobjid "a1b2"), ("title", Value.vstr "Yoga Mat Pro"),
           ("category", Value.vstr "Mobility")]], s)
  create_document := fun _ _ s => .ok ("a1b2", s)

theorem list_products_spec_witness :
    list_products oneDocGateway (some "Mobility") (some 5) () =
      .ok ([[("title", Value.vstr "Yoga Mat Pro"),
             ("category", Value.vstr "Mobility"),
             ("id", Value.vstr "a1b2")]], ()) :=
  (list_products_spec oneDocGateway () (some "Mobility") (some 5)).2.2
    [[("_id", Value.vobjid "a1b2"), ("title", Value.vstr "Yoga Mat Pro"),
      ("category", Value.vstr "Mobility")]] () rfl

/-- C5: the seed operation lists the "product" collection with the empty
filter and limit 1; if any record exists it is a no-op returning the
"Products already exist" response without touching the store, otherwise
it creates exactly the five fixed sample products in their fixed order
(titles as listed) and returns count 5. -/
theorem seed_products_spec {σ : Type} (gw : Gateway σ) (s : σ) :
    (∀ x xs s₁, gw.get_documents "product" [] (some 1) s = .ok (x :: xs, s₁) →
      seed_products gw s = .ok (.noop "ok" "Products already exist", s₁)) ∧
    (∀ s₁ s₂, gw.get_documents "product" [] (some 1) s = .ok ([], s₁) →
      createAll gw sample_products s₁ = .ok s₂ →
      seed_products gw s = .ok (.seeded "ok" 5, s₂)) ∧
    sample_products.length = 5 ∧
    sample_products.map Product.title =
      ["Adjustable Dumbbell (Pair)", "Kettlebell 16kg", "Yoga Mat Pro",
       "Resistance Bands Set", "Foldable Treadmill"] := by
  refine ⟨?_, ?_, rfl, rfl⟩
  · intro x xs s₁ h
    unfold seed_products
    rw [h]
    rfl
  · intro s₁ s₂ hget hcr
    unfold seed_products
    rw [hget]
    show (match createAll gw sample_products s₁ with
      | Except.error e => Except.error (HTTPError.mk 500 e)
      | Except.ok s₂ =>
        Except.ok (SeedResponse.seeded "ok" sample_products.length, s₂)) =
      Except.ok (SeedResponse.seeded "ok" 5, s₂)
    rw [hcr]
    rfl

/-- A gateway over a trace state: reads see an empty collection and every
create appends the record to the trace. -/
def appendGateway : Gateway (List (String × Product)) where
  get_documents := fun _ _ _ s => .ok ([], s)
  create_document := fun c p s => .ok (toString s.length, s ++ [(c, p)])

theorem seed_products_spec_witness :
    seed_products appendGateway ([] : List (String × Product)) =
      .ok (.seeded "ok" 5, sample_products.map (fun p => ("product", p))) ∧
    seed_products oneDocGateway () =
      .ok (.noop "ok" "Products already exist", ()) :=
  ⟨(seed_products_spec appendGateway []).2.1 []
      (sample_products.map (fun p => ("product", p))) rfl rfl,
   (seed_products_spec oneDocGateway ()).1
      [("_id", Value.vobjid "a1b2"), ("title", Value.vstr "Yoga Mat Pro"),
       ("category", Value.vstr "Mobility")] [] () rfl⟩

/-- C7: every storage failure raised by the gateway during list, create
or seed is caught and surfaced as `HTTPException(500, str(e))`: the
handlers are total functions into `Except HTTPError _`, so no storage
exception escapes the handler boundary. -/
theorem storage_errors_surface_500 {σ : Type} (gw : Gateway σ) (s : σ) :
    (∀ category limit e,
      gw.get_documents "product" (filter_dict category) limit s = .error e →
      list_products gw category limit s = .error ⟨500, e⟩) ∧
    (∀ p e, gw.create_document "product" p s = .error e →
      create_product gw p s = .error ⟨500, e⟩) ∧
    (∀ e, gw.get_documents "product" [] (some 1) s = .error e →
      seed_products gw s = .error ⟨500, e⟩) ∧
    (∀ e s₁, gw.get_documents "product" [] (some 1) s = .ok ([], s₁) →
      createAll gw sample_products s₁ = .error e →
      seed_products gw s = .error ⟨500, e⟩) := by
  refine ⟨?_, ?_, ?_, ?_⟩
  · intro category limit e h
    unfold list_products
    rw [h]
  · intro p e h
    unfold create_product
    rw [h]
  · intro e h
    unfold seed_products
    rw [h]
  · intro e s₁ hget hcr
    unfold seed_products
    rw [hget]
    show (match createAll gw sample_products s₁ with
      | Except.error e => Except.error (HTTPError.mk 500 e)
      | Except.ok s₂ =>
        Except.ok (SeedResponse.seeded "ok" sample_products.length, s₂)) =
      Except.error (HTTPError.mk 500 e)
    rw [hcr]

/-- A gateway whose store is down: every operation raises. -/
def downGateway : Gateway Unit where
  get_documents := fun _ _ _ _ => .error "connection refused"
  create_document := fun _ _ _ => .error "connection refused"

/-- A gateway that lists nothing but rejects every write. -/
def writeFailGateway : Gateway Unit where
  get_documents := fun _ _ _ s => .ok ([], s)
  create_document := fun _ _ _ => .error "write rejected"

def demoProduct : Product :=
  { title := "Kettlebell 16kg", description := "Cast iron", price := 59.99
  , category := "Strength", in_stock := true }

theorem storage_errors_surface_500_witness :
    list_products downGateway (some "Cardio") (some 3) () =
      .error ⟨500, "connection refused"⟩ ∧
    create_product downGateway demoProduct () = .error ⟨500, "connection refused"⟩ ∧
    seed_products downGateway () = .error ⟨500, "connection refused"⟩ ∧
    seed_products writeFailGateway () = .error ⟨500, "write rejected"⟩ :=
  ⟨(storage_errors_surface_500 downGateway ()).1 (some "Cardio") (some 3)
      "connection refused" rfl,
   (storage_errors_surface_500 downGateway ()).2.1 demoProduct
      "connection refused" rfl,
   (storage_errors_surface_500 downGateway ()).2.2.1 "connection refused" rfl,
   (storage_errors_surface_500 writeFailGateway ()).2.2.2 "write rejected" () rfl rfl⟩

/-- C8: the `/test` endpoint never fails: it is a total function of the
db handle and the environment, its collection list holds at most 10
names, and a `list_collection_names` exception is converted into a status
string embedding the exception text truncated to 50 characters. -/
theorem test_database_robust (db : DbHandle) (urlSet nameSet : Bool) :
    (test_database db urlSet nameSet).collections.length ≤ 10 ∧
    (∀ name e, db = .available name (.error e) →
      (test_database db urlSet nameSet).database =
        "⚠️  Connected but Error: " ++ e.take 50 ∧
      (e.take 50).length ≤ 50) := by
  constructor
  · cases db with
    | noDb => simp [test_database]
    | available name cn =>
      cases cn with
      | ok cols =>
        simp only [test_database]
        exact List.length_take_le 10 cols
      | error e => simp [test_database]
  · intro name e hdb
    subst hdb
    refine ⟨rfl, ?_⟩
    rw [String.take_eq]
    show (List.take 50 e.data).length ≤ 50
    exact List.length_take_le 50 e.data

theorem test_database_robust_witness :
    (test_database
      (.available (some "gymdb")
        (.error "server selection timeout: no primary found in replica set after waiting"))
      true false).database =
      "⚠️  Connected but Error: " ++
        (("server selection timeout: no primary found in replica set after waiting" : String).take 50) ∧
    (test_database (.available (some "gymdb") (.ok ["product", "user", "order"]))
      true true).collections.length ≤ 10 :=
  ⟨((test_database_robust
      (.available (some "gymdb")
        (.error "server selection timeout: no primary found in replica set after waiting"))
      true false).2 (some "gymdb")
        "server selection timeout: no primary found in replica set after waiting" rfl).1,
   (test_database_robust (.available (some "gymdb") (.ok ["product", "user", "order"]))
      true true).1⟩
